import Mathlib

/-!
# Nintendo 2C0x PPU (`src/devices/video/ppu2c0x.h`)

A shallow embedding of the declarations of `ppu2c0x.h`: the mirroring codes, the
frame-timing enum, the register enum and its bit masks, the member variables of
`ppu2c0x_device`, and the member functions whose bodies the header gives
(`get_current_scanline`, `set_scanlines_per_frame`, `is_sprite_8x16`, `get_draw_phase`,
`get_tilenum`, `use_sprite_write_limitation_disable`).

The header only declares `read`, `write`, `palette_read`, `palette_write`, `readbyte`,
`writebyte`, `spriteram_dma` and `device_timer`; their bodies live in a translation unit that
is not part of the sources at hand.  Those operations are modelled from the written specification, and every such
definition says so in its doc comment.

Conventions: a C++ `int` is a Lean `Int`, an `offs_t` (unsigned) is a `Nat`, a `uint8_t`
is a `Nat` reduced `% 256` where it is stored or returned, `a & b` on `int` is `Int.land`,
`~a` is `Int.lnot`.
-/

namespace ppu2c0x

/-! ## Macros and constants (header lines 21-30) -/

def PPU_MIRROR_NONE : Nat := 0
def PPU_MIRROR_VERT : Nat := 1
def PPU_MIRROR_HORZ : Nat := 2
def PPU_MIRROR_HIGH : Nat := 3
def PPU_MIRROR_LOW : Nat := 4
/-- Same effect as NONE, but signals that we should never mirror. -/
def PPU_MIRROR_4SCREEN : Nat := 5

def PPU_DRAW_BG : Int := 0
def PPU_DRAW_OAM : Int := 1

/-! ## Frame-timing enum (header lines 51-64) -/

def NTSC_SCANLINES_PER_FRAME : Int := 262
def PAL_SCANLINES_PER_FRAME : Int := 312
def BOTTOM_VISIBLE_SCANLINE : Int := 239
def VBLANK_FIRST_SCANLINE : Int := 241
def VBLANK_FIRST_SCANLINE_PALC : Int := 291
def VBLANK_LAST_SCANLINE_NTSC : Int := 260
def VBLANK_LAST_SCANLINE_PAL : Int := 310

/-! ## Register enum (header lines 123-134)

Only `PPU_CONTROL0` carries an initialiser; every later enumerator is its predecessor
plus one. -/

def PPU_CONTROL0 : Nat := 0
def PPU_CONTROL1 : Nat := PPU_CONTROL0 + 1
def PPU_STATUS : Nat := PPU_CONTROL1 + 1
def PPU_SPRITE_ADDRESS : Nat := PPU_STATUS + 1
def PPU_SPRITE_DATA : Nat := PPU_SPRITE_ADDRESS + 1
def PPU_SCROLL : Nat := PPU_SPRITE_DATA + 1
def PPU_ADDRESS : Nat := PPU_SCROLL + 1
def PPU_DATA : Nat := PPU_ADDRESS + 1
def PPU_MAX_REG : Nat := PPU_DATA + 1

/-- The register enumerators in declaration order, `PPU_MAX_REG` excluded. -/
def register_enum : List Nat :=
  [PPU_CONTROL0, PPU_CONTROL1, PPU_STATUS, PPU_SPRITE_ADDRESS, PPU_SPRITE_DATA,
   PPU_SCROLL, PPU_ADDRESS, PPU_DATA]

/-! ## Bit definitions (header lines 137-155) -/

def PPU_CONTROL0_INC : Int := 0x04
def PPU_CONTROL0_SPR_SELECT : Int := 0x08
def PPU_CONTROL0_CHR_SELECT : Int := 0x10
def PPU_CONTROL0_SPRITE_SIZE : Int := 0x20
def PPU_CONTROL0_NMI : Int := 0x80

def PPU_CONTROL1_DISPLAY_MONO : Int := 0x01
def PPU_CONTROL1_BACKGROUND_L8 : Int := 0x02
def PPU_CONTROL1_SPRITES_L8 : Int := 0x04
def PPU_CONTROL1_BACKGROUND : Int := 0x08
def PPU_CONTROL1_SPRITES : Int := 0x10
def PPU_CONTROL1_COLOR_EMPHASIS : Int := 0xe0

def PPU_STATUS_8SPRITES : Int := 0x20
def PPU_STATUS_SPRITE0_HIT : Int := 0x40
def PPU_STATUS_VBLANK : Int := 0x80

/-! ## Timing configurations

The three combinations of the timing enum that the device variants use. -/

/-- One frame-timing configuration: the scanline count of the frame and the first and
last scanline of the vertical blank. -/
structure frame_timing where
  scanlines_per_frame : Int
  vblank_first_scanline : Int
  vblank_last_scanline : Int
deriving DecidableEq, Repr

def timing_ntsc : frame_timing :=
  { scanlines_per_frame := NTSC_SCANLINES_PER_FRAME
    vblank_first_scanline := VBLANK_FIRST_SCANLINE
    vblank_last_scanline := VBLANK_LAST_SCANLINE_NTSC }

def timing_pal : frame_timing :=
  { scanlines_per_frame := PAL_SCANLINES_PER_FRAME
    vblank_first_scanline := VBLANK_FIRST_SCANLINE
    vblank_last_scanline := VBLANK_LAST_SCANLINE_PAL }

def timing_palc : frame_timing :=
  { scanlines_per_frame := PAL_SCANLINES_PER_FRAME
    vblank_first_scanline := VBLANK_FIRST_SCANLINE_PALC
    vblank_last_scanline := VBLANK_LAST_SCANLINE_PAL }

/-- A scanline number that lies inside the frame of the configuration. -/
def in_frame (t : frame_timing) (line : Int) : Prop :=
  0 ≤ line ∧ line < t.scanlines_per_frame

instance (t : frame_timing) (line : Int) : Decidable (in_frame t line) := by
  unfold in_frame; infer_instance

/-- A scanline on which pixels are rendered: the visible lines end at
`BOTTOM_VISIBLE_SCANLINE`. -/
def is_rendering (line : Int) : Prop :=
  0 ≤ line ∧ line ≤ BOTTOM_VISIBLE_SCANLINE

instance (line : Int) : Decidable (is_rendering line) := by
  unfold is_rendering; infer_instance

/-- A scanline inside the vertical blank of the configuration. -/
def in_vblank (t : frame_timing) (line : Int) : Prop :=
  t.vblank_first_scanline ≤ line ∧ line ≤ t.vblank_last_scanline

instance (t : frame_timing) (line : Int) : Decidable (in_vblank t line) := by
  unfold in_vblank; infer_instance

/-! ## Device state (header lines 170-222)

The member variables of `ppu2c0x_device` that hold plain data.  Delegates, timers, the
bitmap and the colour tables are host-framework objects and are not part of the state.
`m_regs` is `int m_regs[PPU_MAX_REG]`, `m_palette_ram` is `uint8_t m_palette_ram[0x20]`.
The three trailing fields are not members of the class: see their doc comments. -/

structure ppu2c0x_device where
  /-- number of scanlines per frame -/
  m_scanlines_per_frame : Int
  /-- Protection value of the 2C05. -/
  m_security_value : Int
  /-- the very first scanline where VBLANK occurs -/
  m_vblank_first_scanline : Int
  /-- scanline count -/
  m_scanline : Int
  /-- sprite ram -/
  m_spriteram : Fin 0x100 → Nat
  /-- registers -/
  m_regs : Fin PPU_MAX_REG → Int
  /-- refresh-related -/
  m_refresh_data : Int
  /-- refresh-related -/
  m_refresh_latch : Int
  /-- refresh-related -/
  m_x_fine : Int
  /-- used to latch hi-lo scroll -/
  m_toggle : Int
  /-- vram increment amount -/
  m_add : Int
  /-- videomem address pointer -/
  m_videomem_addr : Int
  /-- latched videomem data -/
  m_data_latch : Int
  m_buffered_data : Int
  /-- current tile page -/
  m_tile_page : Int
  /-- current sprite page -/
  m_sprite_page : Int
  /-- background color -/
  m_back_color : Int
  /-- Palette RAM (the header notes it should not be in main memory). -/
  m_palette_ram : Fin 0x20 → Nat
  /-- scan scale -/
  m_scan_scale : Int
  /-- MMC5 can change attributes to subsets of the 34 visible tiles -/
  m_tilecount : Int
  /-- MMC5 uses different regs for BG and OAM -/
  m_draw_phase : Int
  m_use_sprite_write_limitation : Bool
  /-- Modelled from the spec: the mirroring mode, one of the `PPU_MIRROR_*` codes, "fixed at
  configuration time"; the header declares the codes but no member that holds one. -/
  mirroring : Nat
  /-- Modelled from the spec: physical nametable RAM, four banks of 0x400 bytes ("four
  independent banks"), reached through `readbyte`/`writebyte`. -/
  nametable_ram : Fin 4 → Fin 0x400 → Nat
  /-- Modelled from the spec: the pattern-table bytes below the nametables, reached through
  `readbyte`/`writebyte`. -/
  pattern_ram : Fin 0x2000 → Nat

/-- Index of register `PPU_CONTROL0` in `m_regs`. -/
def reg_control0 : Fin PPU_MAX_REG := ⟨PPU_CONTROL0, by decide⟩
/-- Index of register `PPU_CONTROL1` in `m_regs`. -/
def reg_control1 : Fin PPU_MAX_REG := ⟨PPU_CONTROL1, by decide⟩
/-- Index of register `PPU_STATUS` in `m_regs`. -/
def reg_status : Fin PPU_MAX_REG := ⟨PPU_STATUS, by decide⟩
/-- Index of register `PPU_SPRITE_ADDRESS` in `m_regs`. -/
def reg_sprite_address : Fin PPU_MAX_REG := ⟨PPU_SPRITE_ADDRESS, by decide⟩
/-- Index of register `PPU_SPRITE_DATA` in `m_regs`. -/
def reg_sprite_data : Fin PPU_MAX_REG := ⟨PPU_SPRITE_DATA, by decide⟩
/-- Index of register `PPU_SCROLL` in `m_regs`. -/
def reg_scroll : Fin PPU_MAX_REG := ⟨PPU_SCROLL, by decide⟩
/-- Index of register `PPU_ADDRESS` in `m_regs`. -/
def reg_address : Fin PPU_MAX_REG := ⟨PPU_ADDRESS, by decide⟩
/-- Index of register `PPU_DATA` in `m_regs`. -/
def reg_data : Fin PPU_MAX_REG := ⟨PPU_DATA, by decide⟩

/-! ## Member functions with a body in the header

A member function is a function from the state to its result and the state it leaves. -/

/-- Source: `int get_current_scanline() { return m_scanline; }` -/
def get_current_scanline (s : ppu2c0x_device) : Int × ppu2c0x_device :=
  (s.m_scanline, s)

/-- Source: `void set_scanlines_per_frame(int scanlines) { m_scanlines_per_frame = scanlines; }` -/
def set_scanlines_per_frame (s : ppu2c0x_device) (scanlines : Int) : ppu2c0x_device :=
  { s with m_scanlines_per_frame := scanlines }

/-- Source: `int is_sprite_8x16() { return m_regs[PPU_CONTROL0] & PPU_CONTROL0_SPRITE_SIZE; }` -/
def is_sprite_8x16 (s : ppu2c0x_device) : Int × ppu2c0x_device :=
  (Int.land (s.m_regs reg_control0) PPU_CONTROL0_SPRITE_SIZE, s)

/-- Source: `int get_draw_phase() { return m_draw_phase; }` -/
def get_draw_phase (s : ppu2c0x_device) : Int × ppu2c0x_device :=
  (s.m_draw_phase, s)

/-- Source: `int get_tilenum() { return m_tilecount; }` -/
def get_tilenum (s : ppu2c0x_device) : Int × ppu2c0x_device :=
  (s.m_tilecount, s)

/-- Source: `void use_sprite_write_limitation_disable() { m_use_sprite_write_limitation = false; }` -/
def use_sprite_write_limitation_disable (s : ppu2c0x_device) : ppu2c0x_device :=
  { s with m_use_sprite_write_limitation := false }

/-- The scanline counter lies in the frame: `0 <= m_scanline < m_scanlines_per_frame`. -/
def scanline_in_frame (s : ppu2c0x_device) : Prop :=
  0 ≤ s.m_scanline ∧ s.m_scanline < s.m_scanlines_per_frame

instance (s : ppu2c0x_device) : Decidable (scanline_in_frame s) := by
  unfold scanline_in_frame; infer_instance

/-- A concrete device state: every register, latch and memory cell zero, an NTSC frame,
the counter on scanline 0, mirroring code `PPU_MIRROR_NONE`. -/
def device_zero : ppu2c0x_device :=
  { m_scanlines_per_frame := NTSC_SCANLINES_PER_FRAME
    m_security_value := 0
    m_vblank_first_scanline := VBLANK_FIRST_SCANLINE
    m_scanline := 0
    m_spriteram := fun _ => 0
    m_regs := fun _ => 0
    m_refresh_data := 0
    m_refresh_latch := 0
    m_x_fine := 0
    m_toggle := 0
    m_add := 1
    m_videomem_addr := 0
    m_data_latch := 0
    m_buffered_data := 0
    m_tile_page := 0
    m_sprite_page := 0
    m_back_color := 0
    m_palette_ram := fun _ => 0
    m_scan_scale := 1
    m_tilecount := 0
    m_draw_phase := PPU_DRAW_BG
    m_use_sprite_write_limitation := true
    mirroring := PPU_MIRROR_NONE
    nametable_ram := fun _ _ => 0
    pattern_ram := fun _ => 0 }

/-! ## Operations declared in the header whose bodies are not in the sources

`palette_read`, `palette_write`, `readbyte`, `writebyte`, `read` and `write` are declared in
`ppu2c0x.h` (lines 66-69 and 187-188).  The definitions below follow the wording of the
written specification.  The specification names the regions of the 14-bit address space
(pattern tables, nametables, palette RAM) without their bounds; the model uses the 2C0x
memory map: pattern tables 0x0000-0x1FFF, nametables A, B, C, D at 0x2000, 0x2400, 0x2800,
0x2C00 (repeated from 0x3000 to 0x3EFF), palette RAM 0x3F00-0x3FFF. -/

/-- Modelled from the spec: the body of `palette_read`/`palette_write` is missing; this is
the index they use.  "Palette RAM: 32 bytes, with hardware-defined mirroring (index
0x10/0x14/0x18/0x1C alias 0x00/0x04/0x08/0x0C)"; inputs "are masked/mirrored rather than
rejected".  The offset is reduced to 0..31 and the four aliased indices are sent to their
partner. -/
def palette_index (offset : Nat) : Fin 0x20 :=
  if offset % 0x20 ∈ [0x10, 0x14, 0x18, 0x1C] then
    ⟨offset % 0x20 - 0x10, by omega⟩
  else
    ⟨offset % 0x20, Nat.mod_lt offset (by decide)⟩

/-- Modelled from the spec: `uint8_t palette_read(offs_t offset)`, body missing.
"`palette_read`/`palette_write` bypass the main VRAM path and directly index the 32-entry
mirrored palette table." -/
def palette_read (s : ppu2c0x_device) (offset : Nat) : Nat :=
  s.m_palette_ram (palette_index offset)

/-- Modelled from the spec: `void palette_write(offs_t offset, uint8_t data)`, body missing.
The byte is stored in the mirrored palette table; `data % 256` is the `uint8_t` parameter. -/
def palette_write (s : ppu2c0x_device) (offset : Nat) (data : Nat) : ppu2c0x_device :=
  { s with m_palette_ram := Function.update s.m_palette_ram (palette_index offset) (data % 256) }

/-- Modelled from the spec: the remapping of the nametable selection by mirroring mode, part
of the missing `readbyte`/`writebyte` path.  "VERTICAL folds A/C and B/D; HORIZONTAL folds
A/B and C/D; HIGH/LOW force all four to one physical bank; FOUR_SCREEN (and NONE) pass
through unchanged".  A, B, C, D are selections 0, 1, 2, 3.  The spec does not name the bank
that HIGH and LOW force; the model takes bank 1 for HIGH and bank 0 for LOW. -/
def mirror_nametable (mirroring : Nat) (nt : Fin 4) : Fin 4 :=
  if mirroring = PPU_MIRROR_VERT then ⟨nt.val % 2, by omega⟩
  else if mirroring = PPU_MIRROR_HORZ then ⟨nt.val / 2, by omega⟩
  else if mirroring = PPU_MIRROR_HIGH then ⟨1, by decide⟩
  else if mirroring = PPU_MIRROR_LOW then ⟨0, by decide⟩
  else nt

/-- A physical location of video memory: a pattern-table byte, a byte of one of the four
nametable banks, or a palette entry. -/
inductive vram_slot where
  | pattern (a : Fin 0x2000)
  | nametable (bank : Fin 4) (offset : Fin 0x400)
  | palette (i : Fin 0x20)
deriving DecidableEq, Repr

/-- An address that points into palette RAM (0x3F00-0x3FFF of the 14-bit space). -/
def is_palette_address (address : Nat) : Prop :=
  0x3F00 ≤ address % 0x4000

instance (address : Nat) : Decidable (is_palette_address address) := by
  unfold is_palette_address; infer_instance

/-- Modelled from the spec: the VRAM address and mirroring resolver behind the missing
`readbyte`/`writebyte`.  "Given a 14-bit logical address, splits nametable selection (bits
10-11) from offset, and remaps nametable selection per mirroring mode"; it "maps a 14-bit
PPU address to a physical nametable/pattern/palette location". -/
def resolve (mirroring : Nat) (address : Nat) : vram_slot :=
  if h : address % 0x4000 < 0x2000 then
    vram_slot.pattern ⟨address % 0x4000, h⟩
  else if address % 0x4000 < 0x3F00 then
    vram_slot.nametable
      (mirror_nametable mirroring ⟨address % 0x4000 / 0x400 % 4, Nat.mod_lt _ (by decide)⟩)
      ⟨address % 0x4000 % 0x400, Nat.mod_lt _ (by decide)⟩
  else
    vram_slot.palette (palette_index (address % 0x4000))

/-- The byte stored at a physical location. -/
def slot_read (s : ppu2c0x_device) : vram_slot → Nat
  | vram_slot.pattern a => s.pattern_ram a
  | vram_slot.nametable bank offset => s.nametable_ram bank offset
  | vram_slot.palette i => s.m_palette_ram i

/-- Store a byte at a physical location. -/
def slot_write (s : ppu2c0x_device) (data : Nat) : vram_slot → ppu2c0x_device
  | vram_slot.pattern a =>
    { s with pattern_ram := Function.update s.pattern_ram a data }
  | vram_slot.nametable bank offset =>
    { s with nametable_ram :=
        Function.update s.nametable_ram bank (Function.update (s.nametable_ram bank) offset data) }
  | vram_slot.palette i =>
    { s with m_palette_ram := Function.update s.m_palette_ram i data }

/-- Modelled from the spec: `inline uint8_t readbyte(offs_t address)`, body missing: a VRAM
read "through the mirroring resolver". -/
def readbyte (s : ppu2c0x_device) (address : Nat) : Nat :=
  slot_read s (resolve s.mirroring address)

/-- Modelled from the spec: `inline void writebyte(offs_t address, uint8_t data)`, body
missing: "a VRAM write through the mirroring resolver"; `data % 256` is the `uint8_t`
parameter. -/
def writebyte (s : ppu2c0x_device) (address : Nat) (data : Nat) : ppu2c0x_device :=
  slot_write s (data % 256) (resolve s.mirroring address)

/-- The 14-bit logical address given by the running VRAM address `m_refresh_data`. -/
def vram_address (s : ppu2c0x_device) : Nat :=
  (s.m_refresh_data % 0x4000).toNat

/-- Modelled from the spec: the auto-increment of the running address, "by 1 or 32 per
CONTROL0's increment bit". -/
def vram_increment (s : ppu2c0x_device) : Int :=
  if Int.land (s.m_regs reg_control0) PPU_CONTROL0_INC = 0 then 1 else 32

/-- The running address after one auto-increment, kept to the 15 bits the spec gives it. -/
def advance_address (s : ppu2c0x_device) : Int :=
  (s.m_refresh_data + vram_increment s) % 0x8000

/-- The OAM cursor set through SPRITE_ADDRESS, as an index into the 256 bytes of OAM. -/
def oam_cursor (s : ppu2c0x_device) : Fin 0x100 :=
  ⟨(s.m_regs reg_sprite_address % 0x100).toNat, by omega⟩

/-- An `int` returned through a `uint8_t` result. -/
def to_uint8 (v : Int) : Nat :=
  (v % 256).toNat

/-- Modelled from the spec: `uint8_t read(offs_t offset)`, body missing.  The offset
addresses "one of 8 ports (mirrored every 8 bytes)".
STATUS: "clears the vblank flag and the write-toggle"; the value returned is the status
register before the clear.
SPRITE_DATA: "reads OAM at that cursor".
DATA: "returns a buffered value (the byte fetched by the previous read, except when the
address points into palette RAM, which returns immediately) then triggers the next prefetch
and auto-increment"; the prefetch reads the byte at the running address through the
resolver, and the running address stays within its 15 bits.
The spec gives no read behaviour for the other ports; the model returns the data latch
and leaves the state as it is. -/
def read (s : ppu2c0x_device) (offset : Nat) : Nat × ppu2c0x_device :=
  if offset % 8 = PPU_STATUS then
    (to_uint8 (s.m_regs reg_status),
     { s with
       m_regs := Function.update s.m_regs reg_status
         (Int.land (s.m_regs reg_status) (Int.lnot PPU_STATUS_VBLANK))
       m_toggle := 0 })
  else if offset % 8 = PPU_SPRITE_DATA then
    (s.m_spriteram (oam_cursor s), s)
  else if offset % 8 = PPU_DATA then
    ((if is_palette_address (vram_address s) then readbyte s (vram_address s)
      else to_uint8 s.m_buffered_data),
     { s with
       m_buffered_data := (readbyte s (vram_address s) : Nat)
       m_refresh_data := advance_address s })
  else
    (to_uint8 s.m_data_latch, s)

/-- Modelled from the spec: `void write(offs_t offset, uint8_t data)`, body missing.
CONTROL0, CONTROL1, SPRITE_ADDRESS: the byte is stored in the register slot ("Writing
SPRITE_ADDRESS sets an OAM cursor").
SPRITE_DATA: "writes OAM at that cursor".
SCROLL and ADDRESS: "alternates which half (hi/lo) is affected based on the shared toggle
bit; the second write of ADDRESS additionally commits the combined value into the running
VRAM address".  The first ADDRESS write sets the high six bits of the 14-bit address in the
latch, the second sets the low eight bits.  The spec does not give the layout of the two
scroll halves; the model keeps the scroll byte in its register slot.
DATA: "performs a VRAM write through the mirroring resolver at the current running address,
then auto-increments the address".
A write to STATUS leaves the state as it is. -/
def write (s : ppu2c0x_device) (offset : Nat) (data : Nat) : ppu2c0x_device :=
  if offset % 8 = PPU_CONTROL0 then
    { s with m_regs := Function.update s.m_regs reg_control0 ((data % 256 : Nat) : Int) }
  else if offset % 8 = PPU_CONTROL1 then
    { s with m_regs := Function.update s.m_regs reg_control1 ((data % 256 : Nat) : Int) }
  else if offset % 8 = PPU_SPRITE_ADDRESS then
    { s with m_regs := Function.update s.m_regs reg_sprite_address ((data % 256 : Nat) : Int) }
  else if offset % 8 = PPU_SPRITE_DATA then
    { s with m_spriteram := Function.update s.m_spriteram (oam_cursor s) (data % 256) }
  else if offset % 8 = PPU_SCROLL then
    { s with
      m_regs := Function.update s.m_regs reg_scroll ((data % 256 : Nat) : Int)
      m_toggle := if s.m_toggle = 0 then 1 else 0 }
  else if offset % 8 = PPU_ADDRESS then
    if s.m_toggle = 0 then
      { s with
        m_refresh_latch := ((data % 0x40 : Nat) : Int) * 0x100 + s.m_refresh_latch % 0x100
        m_toggle := 1 }
    else
      { s with
        m_refresh_latch := s.m_refresh_latch % 0x8000 / 0x100 * 0x100 + ((data % 256 : Nat) : Int)
        m_refresh_data := s.m_refresh_latch % 0x8000 / 0x100 * 0x100 + ((data % 256 : Nat) : Int)
        m_toggle := 0 }
  else if offset % 8 = PPU_DATA then
    { writebyte s (vram_address s) data with m_refresh_data := advance_address s }
  else
    s

/-! ## The scanline event, OAM DMA and the operations of the device

The header declares `device_timer` and `spriteram_dma` without bodies. -/

/-- Modelled from the spec: the scanline event of `device_timer` (`TIMER_SCANLINE`), body
missing.  It "advances the scanline counter, ... wraps at `scanlines_per_frame`"; "vblank
begins at a configurable first-vblank scanline ..., ends one scanline before wraparound",
and "after 241 scanline-advance events from scanline 0, STATUS's vblank bit reads 1".
The counter is incremented and returns to 0 when it reaches `m_scanlines_per_frame`; the
vblank flag is set when the counter reaches `m_vblank_first_scanline` and cleared on the
last scanline of the frame.  The transient rendering buffers and the restart of the scroll
latches are not part of this state. -/
def device_timer_scanline (s : ppu2c0x_device) : ppu2c0x_device :=
  { s with
    m_scanline :=
      if s.m_scanline + 1 = s.m_scanlines_per_frame then 0 else s.m_scanline + 1
    m_regs :=
      if s.m_scanline + 1 = s.m_vblank_first_scanline then
        Function.update s.m_regs reg_status (Int.lor (s.m_regs reg_status) PPU_STATUS_VBLANK)
      else if s.m_scanline + 1 = s.m_scanlines_per_frame - 1 then
        Function.update s.m_regs reg_status
          (Int.land (s.m_regs reg_status) (Int.lnot PPU_STATUS_VBLANK))
      else s.m_regs }

/-- Modelled from the spec: `void spriteram_dma(address_space &space, const uint8_t page)`,
body missing: it "bulk-copies 256 bytes from external memory at `page*0x100` into OAM".
`space` gives the byte of external memory at an address. -/
def spriteram_dma (s : ppu2c0x_device) (space : Nat → Nat) (page : Nat) : ppu2c0x_device :=
  { s with m_spriteram := fun i => space (page % 256 * 0x100 + i.val) % 256 }

/-- The operations on the device that the header or the spec describes: the register ports,
the palette ports, OAM DMA, the member functions with a body in the header, and the scanline
event. -/
inductive operation where
  | read (offset : Nat)
  | write (offset : Nat) (data : Nat)
  | palette_read (offset : Nat)
  | palette_write (offset : Nat) (data : Nat)
  | spriteram_dma (space : Nat → Nat) (page : Nat)
  | get_current_scanline
  | set_scanlines_per_frame (scanlines : Int)
  | is_sprite_8x16
  | get_draw_phase
  | get_tilenum
  | use_sprite_write_limitation_disable
  | device_timer_scanline

/-- The state an operation leaves. -/
def step (s : ppu2c0x_device) : operation → ppu2c0x_device
  | operation.read offset => (read s offset).2
  | operation.write offset data => write s offset data
  | operation.palette_read _ => s
  | operation.palette_write offset data => palette_write s offset data
  | operation.spriteram_dma space page => spriteram_dma s space page
  | operation.get_current_scanline => (get_current_scanline s).2
  | operation.set_scanlines_per_frame scanlines => set_scanlines_per_frame s scanlines
  | operation.is_sprite_8x16 => (is_sprite_8x16 s).2
  | operation.get_draw_phase => (get_draw_phase s).2
  | operation.get_tilenum => (get_tilenum s).2
  | operation.use_sprite_write_limitation_disable => use_sprite_write_limitation_disable s
  | operation.device_timer_scanline => device_timer_scanline s

/-- The state after a sequence of operations, first operation first. -/
def run (s : ppu2c0x_device) : List operation → ppu2c0x_device
  | [] => s
  | op :: ops => run (step s op) ops

/-- The one restriction on an operation: `set_scanlines_per_frame(n)` is called with `n`
above the current counter.  Every other operation is unrestricted. -/
def keeps_counter_below (s : ppu2c0x_device) : operation → Prop
  | operation.set_scanlines_per_frame scanlines => s.m_scanline < scanlines
  | _ => True

/-- Every `set_scanlines_per_frame(n)` of the sequence is called with `n` above the counter
it finds. -/
def setter_calls_above_counter (s : ppu2c0x_device) : List operation → Prop
  | [] => True
  | op :: ops => keeps_counter_below s op ∧ setter_calls_above_counter (step s op) ops

/-- Modelled from the spec: the counters at device start (the constructor and `device_start`
bodies are missing): the counter is on scanline 0 ("from scanline 0") and the frame has the
scanline count of the variant, 262 (NTSC) or 312 (PAL).  Registers and memory are
unconstrained. -/
def at_device_start (s : ppu2c0x_device) : Prop :=
  s.m_scanline = 0 ∧
  (s.m_scanlines_per_frame = NTSC_SCANLINES_PER_FRAME ∨
   s.m_scanlines_per_frame = PAL_SCANLINES_PER_FRAME)

instance (s : ppu2c0x_device) : Decidable (at_device_start s) := by
  unfold at_device_start; infer_instance

/-! ## The DATA port over an arbitrary palette window

The spec says which reads return at once, those whose "address points into palette RAM",
without giving the bounds of palette RAM in the 14-bit space.  The definitions of this
section repeat the DATA port of `read` and `write` with the set of palette addresses as a
parameter, so that statements about the DATA port can be made for every placement of the
palette window; at `palette_window_2c0x` they are `read` and `write`. -/

/-- The palette window of the 2C0x memory map, 0x3F00-0x3FFF, on 14-bit addresses. -/
def palette_window_2c0x (address : Nat) : Bool :=
  decide (0x3F00 ≤ address)

/-- Modelled from the spec: `resolve` with the palette window as a parameter: an address of
the window resolves to its palette entry, every other address to a pattern byte (below
0x2000) or to a nametable byte through the mirroring mode. -/
def resolve_in (window : Nat → Bool) (mirroring : Nat) (address : Nat) : vram_slot :=
  if window (address % 0x4000) = true then
    vram_slot.palette (palette_index (address % 0x4000))
  else if h : address % 0x4000 < 0x2000 then
    vram_slot.pattern ⟨address % 0x4000, h⟩
  else
    vram_slot.nametable
      (mirror_nametable mirroring ⟨address % 0x4000 / 0x400 % 4, Nat.mod_lt _ (by decide)⟩)
      ⟨address % 0x4000 % 0x400, Nat.mod_lt _ (by decide)⟩

/-- Modelled from the spec: `readbyte` over the palette window `window`. -/
def readbyte_in (window : Nat → Bool) (s : ppu2c0x_device) (address : Nat) : Nat :=
  slot_read s (resolve_in window s.mirroring address)

/-- Modelled from the spec: `writebyte` over the palette window `window`. -/
def writebyte_in (window : Nat → Bool) (s : ppu2c0x_device) (address : Nat) (data : Nat) :
    ppu2c0x_device :=
  slot_write s (data % 256) (resolve_in window s.mirroring address)

/-- Modelled from the spec: `read` over the palette window `window`.  The DATA port "returns
a buffered value (the byte fetched by the previous read, except when the address points into
palette RAM, which returns immediately) then triggers the next prefetch and auto-increment";
the other ports do not look at the window. -/
def read_in (window : Nat → Bool) (s : ppu2c0x_device) (offset : Nat) :
    Nat × ppu2c0x_device :=
  if offset % 8 = PPU_DATA then
    ((if window (vram_address s) = true then readbyte_in window s (vram_address s)
      else to_uint8 s.m_buffered_data),
     { s with
       m_buffered_data := (readbyte_in window s (vram_address s) : Nat)
       m_refresh_data := advance_address s })
  else
    read s offset

/-- Modelled from the spec: `write` over the palette window `window`.  The DATA port
"performs a VRAM write through the mirroring resolver at the current running address, then
auto-increments the address"; the other ports do not look at the window. -/
def write_in (window : Nat → Bool) (s : ppu2c0x_device) (offset : Nat) (data : Nat) :
    ppu2c0x_device :=
  if offset % 8 = PPU_DATA then
    { writebyte_in window s (vram_address s) data with m_refresh_data := advance_address s }
  else
    write s offset data

/-- Pointing the running address at the 14-bit address `a` through the ports: a STATUS read
(which clears the toggle), then the high and the low byte through ADDRESS. -/
def point_at (s : ppu2c0x_device) (a : Nat) : ppu2c0x_device :=
  write (write (read s PPU_STATUS).2 PPU_ADDRESS (a / 0x100)) PPU_ADDRESS (a % 0x100)

/-- The state in which the first DATA read of the scenario is issued: the running address is
pointed at `a`, the byte `X` is written through DATA, and the running address is pointed at
`a` again. -/
def written_then_pointed (window : Nat → Bool) (s : ppu2c0x_device) (a X : Nat) :
    ppu2c0x_device :=
  point_at (write_in window (point_at s a) PPU_DATA X) a

/-- The all-zero device state with 0x11 in the read buffer. -/
def device_buffer_11 : ppu2c0x_device :=
  { device_zero with m_buffered_data := 0x11 }

/-- The all-zero device state with 0x2A in every palette entry. -/
def device_palette_2a : ppu2c0x_device :=
  { device_zero with m_palette_ram := fun _ => 0x2A }

/-- A sample sequence: two scanline events, a STATUS read, `set_scanlines_per_frame(312)`
and a DATA write. -/
def sample_operations : List operation :=
  [operation.device_timer_scanline, operation.device_timer_scanline,
   operation.read PPU_STATUS, operation.set_scanlines_per_frame 312,
   operation.write PPU_DATA 0x55]

/-- The bus address of nametable `n` (A = 0, B = 1, C = 2, D = 3) at byte `offset`. -/
def nametable_address (n : Nat) (offset : Nat) : Nat :=
  0x2000 + n * 0x400 + offset

/-- The all-zero device state with vertical mirroring. -/
def device_vert : ppu2c0x_device :=
  { device_zero with mirroring := PPU_MIRROR_VERT }

/-- The state reached from the all-zero state by storing 0x2A in palette entry 0, pointing
the running address at 0x3EFF (two ADDRESS writes), writing 0x55 through DATA, and pointing
the running address at 0x3EFF again.  CONTROL0 is zero, so the increment is 1. -/
def device_at_3eff : ppu2c0x_device :=
  write (write (write (write (write (palette_write device_zero 0 0x2A)
    PPU_ADDRESS 0x3E) PPU_ADDRESS 0xFF) PPU_DATA 0x55) PPU_ADDRESS 0x3E) PPU_ADDRESS 0xFF

/-- A device state with the counter on scanline 261, the last of an NTSC frame. -/
def device_line_261 : ppu2c0x_device :=
  { device_zero with m_scanline := 261 }

/-- A device state with the counter on scanline 100 of an NTSC frame. -/
def device_line_100 : ppu2c0x_device :=
  { device_zero with m_scanline := 100 }

/-- A device state whose registers all hold 0xDF: every bit of the low byte except the
sprite-size bit of CONTROL0 is set. -/
def device_regs_df : ppu2c0x_device :=
  { device_zero with m_regs := fun _ => 0xDF, m_draw_phase := PPU_DRAW_OAM, m_toggle := 1 }

/-! ## Theorems -/

/-! ### Bit masks on `int` -/

theorem nat_land_two_pow (n k : Nat) :
    n &&& 2 ^ k = if n.testBit k then 2 ^ k else 0 := by
  apply Nat.eq_of_testBit_eq
  intro i
  rw [Nat.testBit_and, Nat.testBit_two_pow]
  by_cases h : k = i
  · subst h
    cases hb : n.testBit k <;> simp [Nat.testBit_two_pow]
  · cases hb : n.testBit k <;> simp [Nat.testBit_two_pow, h]

theorem nat_ldiff_two_pow (m k : Nat) :
    Nat.ldiff (2 ^ k) m = if m.testBit k then 0 else 2 ^ k := by
  apply Nat.eq_of_testBit_eq
  intro i
  rw [Nat.testBit_ldiff, Nat.testBit_two_pow]
  by_cases h : k = i
  · subst h
    cases hb : m.testBit k <;> simp [Nat.testBit_two_pow]
  · cases hb : m.testBit k <;> simp [Nat.testBit_two_pow, h]

/-- Masking an `int` with a single bit gives that bit or zero, also for negative values. -/
theorem int_land_two_pow (x : Int) (k : Nat) :
    Int.land x ((2 ^ k : Nat) : Int) = if x.testBit k then ((2 ^ k : Nat) : Int) else 0 := by
  cases x with
  | ofNat n =>
    show ((n &&& 2 ^ k : Nat) : Int) = _
    rw [nat_land_two_pow]
    show _ = if n.testBit k then _ else _
    split <;> simp
  | negSucc m =>
    show ((Nat.ldiff (2 ^ k) m : Nat) : Int) = _
    rw [nat_ldiff_two_pow]
    show _ = if (!m.testBit k) = true then _ else _
    cases m.testBit k <;> simp

theorem int_land_0x20 (x : Int) : Int.land x 0x20 = if x.testBit 5 then 0x20 else 0 :=
  int_land_two_pow x 5

theorem int_land_0x80 (x : Int) : Int.land x 0x80 = if x.testBit 7 then 0x80 else 0 :=
  int_land_two_pow x 7

/-- Claim C1: the frame-timing constants are 262 (NTSC) and 312 (PAL) scanlines per frame,
first vblank scanline 241 (NTSC) and 291 (PAL clones); each first-vblank scanline is strictly
greater than `BOTTOM_VISIBLE_SCANLINE = 239` and strictly less than the scanline count of
its standard. -/
theorem timing_constants_match_table :
    NTSC_SCANLINES_PER_FRAME = 262 ∧ PAL_SCANLINES_PER_FRAME = 312 ∧
    VBLANK_FIRST_SCANLINE = 241 ∧ VBLANK_FIRST_SCANLINE_PALC = 291 ∧
    BOTTOM_VISIBLE_SCANLINE = 239 ∧
    BOTTOM_VISIBLE_SCANLINE < VBLANK_FIRST_SCANLINE ∧
    VBLANK_FIRST_SCANLINE < NTSC_SCANLINES_PER_FRAME ∧
    VBLANK_FIRST_SCANLINE < PAL_SCANLINES_PER_FRAME ∧
    BOTTOM_VISIBLE_SCANLINE < VBLANK_FIRST_SCANLINE_PALC ∧
    VBLANK_FIRST_SCANLINE_PALC < PAL_SCANLINES_PER_FRAME ∧
    timing_ntsc.scanlines_per_frame = 262 ∧ timing_ntsc.vblank_first_scanline = 241 ∧
    timing_pal.scanlines_per_frame = 312 ∧ timing_pal.vblank_first_scanline = 241 ∧
    timing_palc.scanlines_per_frame = 312 ∧ timing_palc.vblank_first_scanline = 291 := by
  decide

/-- Claim C6: the register enum maps control0, control1, status, sprite-address,
sprite-data, scroll, address, data to 0..7 in that order, `PPU_MAX_REG = 8` is the number of
slots of `m_regs`, and every offset reduced modulo 8 is below `PPU_MAX_REG`, equals exactly
one enumerator and is exactly one index of `m_regs`. -/
theorem register_enum_eight_slots :
    register_enum = [0, 1, 2, 3, 4, 5, 6, 7] ∧
    PPU_CONTROL0 = 0 ∧ PPU_CONTROL1 = 1 ∧ PPU_STATUS = 2 ∧ PPU_SPRITE_ADDRESS = 3 ∧
    PPU_SPRITE_DATA = 4 ∧ PPU_SCROLL = 5 ∧ PPU_ADDRESS = 6 ∧ PPU_DATA = 7 ∧
    PPU_MAX_REG = 8 ∧ register_enum.length = PPU_MAX_REG ∧ register_enum.Nodup ∧
    Fintype.card (Fin PPU_MAX_REG) = 8 ∧
    (∀ offset : Nat, offset % 8 < PPU_MAX_REG ∧
      (∃! r, r ∈ register_enum ∧ r = offset % 8) ∧
      (∃! i : Fin PPU_MAX_REG, i.val = offset % 8)) := by
  refine ⟨by decide, rfl, rfl, rfl, rfl, rfl, rfl, rfl, rfl, rfl, rfl, by decide, by decide, ?_⟩
  intro offset
  have hlt : offset % 8 < 8 := Nat.mod_lt offset (by decide)
  refine ⟨hlt, ⟨offset % 8, ⟨?_, rfl⟩, fun r hr => hr.2⟩,
    ⟨⟨offset % 8, hlt⟩, rfl, fun i hi => Fin.ext hi⟩⟩
  have hmem : ∀ k, k < 8 → k ∈ register_enum := by decide
  exact hmem _ hlt

/-- Claim C7: vblank ends one scanline before the frame wraps, for both standards:
`VBLANK_LAST_SCANLINE_NTSC + 2 = NTSC_SCANLINES_PER_FRAME` and
`VBLANK_LAST_SCANLINE_PAL + 2 = PAL_SCANLINES_PER_FRAME`, so the scanline after the last
vblank scanline is the final scanline of the frame. -/
theorem vblank_ends_one_line_before_wrap :
    VBLANK_LAST_SCANLINE_NTSC + 2 = NTSC_SCANLINES_PER_FRAME ∧
    VBLANK_LAST_SCANLINE_PAL + 2 = PAL_SCANLINES_PER_FRAME ∧
    (∀ t ∈ [timing_ntsc, timing_pal, timing_palc],
      t.vblank_last_scanline + 1 = t.scanlines_per_frame - 1 ∧
      ¬ in_vblank t (t.vblank_last_scanline + 1) ∧
      in_frame t (t.vblank_last_scanline + 1) ∧
      ¬ in_frame t (t.vblank_last_scanline + 2)) := by
  decide

/-- Claim C9: for the NTSC, PAL and PAL-clone configurations, the scanline immediately
before the first vblank scanline and the scanline immediately after the last vblank scanline
are inside the frame, greater than `BOTTOM_VISIBLE_SCANLINE` (not rendered) and outside the
vblank range; for NTSC and PAL the scanline before vblank is `BOTTOM_VISIBLE_SCANLINE + 1`. -/
theorem lines_around_vblank_idle :
    timing_ntsc = ⟨262, 241, 260⟩ ∧ timing_pal = ⟨312, 241, 310⟩ ∧
    timing_palc = ⟨312, 291, 310⟩ ∧
    (∀ t ∈ [timing_ntsc, timing_pal, timing_palc],
      in_frame t (t.vblank_first_scanline - 1) ∧
      in_frame t (t.vblank_last_scanline + 1) ∧
      BOTTOM_VISIBLE_SCANLINE < t.vblank_first_scanline - 1 ∧
      BOTTOM_VISIBLE_SCANLINE < t.vblank_last_scanline + 1 ∧
      ¬ is_rendering (t.vblank_first_scanline - 1) ∧
      ¬ is_rendering (t.vblank_last_scanline + 1) ∧
      ¬ in_vblank t (t.vblank_first_scanline - 1) ∧
      ¬ in_vblank t (t.vblank_last_scanline + 1)) ∧
    timing_ntsc.vblank_first_scanline - 1 = BOTTOM_VISIBLE_SCANLINE + 1 ∧
    timing_pal.vblank_first_scanline - 1 = BOTTOM_VISIBLE_SCANLINE + 1 := by
  decide

/-- Claim C10: `is_sprite_8x16()` returns `m_regs[PPU_CONTROL0] & 0x20`, which is 0 or
0x20, is non-zero exactly when bit 5 of CONTROL0 is set, is the same in any two states whose
CONTROL0 agree on bit 5 (so it ignores every other register and member), does not change
when the INC, SPR_SELECT, CHR_SELECT or NMI bit of CONTROL0 is flipped, and the call leaves
the state unchanged. -/
theorem is_sprite_8x16_only_size_bit (s : ppu2c0x_device) :
    (is_sprite_8x16 s).1 = Int.land (s.m_regs reg_control0) 0x20 ∧
    ((is_sprite_8x16 s).1 = 0 ∨ (is_sprite_8x16 s).1 = 0x20) ∧
    ((is_sprite_8x16 s).1 ≠ 0 ↔ (s.m_regs reg_control0).testBit 5 = true) ∧
    (∀ t : ppu2c0x_device,
      (t.m_regs reg_control0).testBit 5 = (s.m_regs reg_control0).testBit 5 →
      (is_sprite_8x16 t).1 = (is_sprite_8x16 s).1) ∧
    (∀ m ∈ [PPU_CONTROL0_INC, PPU_CONTROL0_SPR_SELECT, PPU_CONTROL0_CHR_SELECT,
        PPU_CONTROL0_NMI],
      (is_sprite_8x16 { s with
          m_regs := Function.update s.m_regs reg_control0 (Int.xor (s.m_regs reg_control0) m) }).1
        = (is_sprite_8x16 s).1) ∧
    (is_sprite_8x16 s).2 = s := by
  have hval : ∀ t : ppu2c0x_device,
      (is_sprite_8x16 t).1 = if (t.m_regs reg_control0).testBit 5 then 0x20 else 0 :=
    fun t => int_land_0x20 _
  refine ⟨rfl, ?_, ?_, ?_, ?_, rfl⟩
  · rw [hval]; split <;> simp
  · rw [hval]; split <;> simp_all
  · intro t ht
    rw [hval, hval, ht]
  · intro m hm
    have hbit : m.testBit 5 = false := by
      simp only [List.mem_cons, List.mem_singleton, List.not_mem_nil, or_false] at hm
      rcases hm with h | h | h | h <;> subst h <;> decide
    rw [hval, hval]
    simp [Function.update_same, Int.testBit_lxor, hbit]

/-- Witness for C10: the all-zero state and the state whose registers hold 0xDF agree on
bit 5 of CONTROL0, so `is_sprite_8x16` returns the same value in both. -/
theorem is_sprite_8x16_only_size_bit_witness :
    (device_regs_df.m_regs reg_control0).testBit 5
      = (device_zero.m_regs reg_control0).testBit 5 ∧
    (is_sprite_8x16 device_regs_df).1 = (is_sprite_8x16 device_zero).1 :=
  ⟨by decide, (is_sprite_8x16_only_size_bit device_zero).2.2.2.1 device_regs_df (by decide)⟩

theorem device_timer_scanline_in_frame (s : ppu2c0x_device) (h : scanline_in_frame s) :
    scanline_in_frame (device_timer_scanline s) := by
  unfold scanline_in_frame at h ⊢
  unfold device_timer_scanline
  simp only
  split <;> omega

theorem read_counters (s : ppu2c0x_device) (offset : Nat) :
    (read s offset).2.m_scanline = s.m_scanline ∧
    (read s offset).2.m_scanlines_per_frame = s.m_scanlines_per_frame := by
  unfold read
  split_ifs <;> exact ⟨rfl, rfl⟩

theorem slot_write_counters (s : ppu2c0x_device) (d : Nat) (sl : vram_slot) :
    (slot_write s d sl).m_scanline = s.m_scanline ∧
    (slot_write s d sl).m_scanlines_per_frame = s.m_scanlines_per_frame := by
  cases sl <;> exact ⟨rfl, rfl⟩

theorem write_counters (s : ppu2c0x_device) (offset data : Nat) :
    (write s offset data).m_scanline = s.m_scanline ∧
    (write s offset data).m_scanlines_per_frame = s.m_scanlines_per_frame := by
  unfold write
  split_ifs
  all_goals first
    | exact ⟨rfl, rfl⟩
    | exact slot_write_counters s _ _

theorem step_in_frame (s : ppu2c0x_device) (op : operation)
    (h : scanline_in_frame s) (hop : keeps_counter_below s op) :
    scanline_in_frame (step s op) := by
  cases op with
  | read offset =>
    have hc := read_counters s offset
    unfold scanline_in_frame at h ⊢
    show 0 ≤ (read s offset).2.m_scanline ∧
      (read s offset).2.m_scanline < (read s offset).2.m_scanlines_per_frame
    rw [hc.1, hc.2]
    exact h
  | write offset data =>
    have hc := write_counters s offset data
    unfold scanline_in_frame at h ⊢
    show 0 ≤ (write s offset data).m_scanline ∧
      (write s offset data).m_scanline < (write s offset data).m_scanlines_per_frame
    rw [hc.1, hc.2]
    exact h
  | set_scanlines_per_frame scanlines => exact ⟨h.1, hop⟩
  | device_timer_scanline => exact device_timer_scanline_in_frame s h
  | palette_read offset => exact h
  | palette_write offset data => exact h
  | spriteram_dma space page => exact h
  | get_current_scanline => exact h
  | is_sprite_8x16 => exact h
  | get_draw_phase => exact h
  | get_tilenum => exact h
  | use_sprite_write_limitation_disable => exact h

theorem run_in_frame (ops : List operation) :
    ∀ s : ppu2c0x_device, scanline_in_frame s → setter_calls_above_counter s ops →
      scanline_in_frame (run s ops) := by
  induction ops with
  | nil =>
    intro s h _
    exact h
  | cons op ops ih =>
    intro s h hops
    exact ih (step s op) (step_in_frame s op h hops.1) hops.2

theorem run_scanline_events (k : Nat) :
    ∀ s : ppu2c0x_device, s.m_scanline + (k : Int) < s.m_scanlines_per_frame →
      (run s (List.replicate k operation.device_timer_scanline)).m_scanline
        = s.m_scanline + (k : Int) ∧
      (run s (List.replicate k operation.device_timer_scanline)).m_scanlines_per_frame
        = s.m_scanlines_per_frame := by
  induction k with
  | zero =>
    intro s _
    exact ⟨by simp [run], rfl⟩
  | succ k ih =>
    intro s h
    have hne : ¬ (s.m_scanline + 1 = s.m_scanlines_per_frame) := by
      push_cast at h
      omega
    have h1 : (device_timer_scanline s).m_scanline = s.m_scanline + 1 := by
      unfold device_timer_scanline
      simp only [if_neg hne]
    have h2 : (device_timer_scanline s).m_scanlines_per_frame = s.m_scanlines_per_frame :=
      rfl
    have hk := ih (device_timer_scanline s) (by rw [h1, h2]; push_cast at h; omega)
    have hrun : run s (List.replicate (k + 1) operation.device_timer_scanline)
        = run (device_timer_scanline s) (List.replicate k operation.device_timer_scanline) :=
      rfl
    rw [hrun, hk.1, hk.2, h1, h2]
    push_cast
    exact ⟨by omega, rfl⟩

theorem palette_index_fold (offset : Nat) :
    palette_index offset = palette_index (offset % 0x20) := by
  unfold palette_index
  simp only [Nat.mod_mod]

theorem palette_read_write_of_index_eq (s : ppu2c0x_device) (i j b : Nat)
    (h : palette_index i = palette_index j) :
    palette_read (palette_write s i b) j = b % 256 := by
  simp [palette_read, palette_write, h]

/-- Claim C4: palette RAM has 32 entries; for every byte `b`, `palette_write(0x10, b)`
followed by `palette_read(0x00)` returns `b`, likewise for 0x14/0x04, 0x18/0x08 and 0x1C/0x0C
(and in the other direction); every offset is folded to an index below 32, offsets that
differ by a multiple of 32 share an entry, and a byte written at an offset is read back
there. -/
theorem palette_mirrored (s : ppu2c0x_device) (b : Nat) (hb : b < 256) :
    Fintype.card (Fin 0x20) = 32 ∧
    palette_read (palette_write s 0x10 b) 0x00 = b ∧
    palette_read (palette_write s 0x14 b) 0x04 = b ∧
    palette_read (palette_write s 0x18 b) 0x08 = b ∧
    palette_read (palette_write s 0x1C b) 0x0C = b ∧
    palette_read (palette_write s 0x00 b) 0x10 = b ∧
    palette_read (palette_write s 0x04 b) 0x14 = b ∧
    palette_read (palette_write s 0x08 b) 0x18 = b ∧
    palette_read (palette_write s 0x0C b) 0x1C = b ∧
    (∀ offset : Nat,
      (palette_index offset).val < 0x20 ∧
      palette_index (offset + 0x20) = palette_index offset ∧
      palette_read s offset = s.m_palette_ram (palette_index offset) ∧
      (palette_write s offset b).m_palette_ram
        = Function.update s.m_palette_ram (palette_index offset) b ∧
      palette_read (palette_write s offset b) offset = b) := by
  have hmod : b % 256 = b := Nat.mod_eq_of_lt hb
  have hpair : ∀ i j : Nat, palette_index i = palette_index j →
      palette_read (palette_write s i b) j = b := by
    intro i j hij
    rw [palette_read_write_of_index_eq s i j b hij, hmod]
  refine ⟨by simp, hpair _ _ (by decide), hpair _ _ (by decide), hpair _ _ (by decide),
    hpair _ _ (by decide), hpair _ _ (by decide), hpair _ _ (by decide),
    hpair _ _ (by decide), hpair _ _ (by decide), ?_⟩
  intro offset
  refine ⟨(palette_index offset).isLt, ?_, rfl, ?_, hpair _ _ rfl⟩
  · rw [palette_index_fold (offset + 0x20), palette_index_fold offset]
    simp
  · simp [palette_write, hmod]

/-- Witness for C4: the byte 0x2A written at palette offset 0x10 of the all-zero state. -/
theorem palette_mirrored_witness :
    0x2A < 256 ∧ palette_read (palette_write device_zero 0x10 0x2A) 0x00 = 0x2A :=
  ⟨by decide, (palette_mirrored device_zero 0x2A (by decide)).2.1⟩

/-! ### Video memory and the mirroring resolver -/

theorem slot_read_write_same (s : ppu2c0x_device) (d : Nat) (sl : vram_slot) :
    slot_read (slot_write s d sl) sl = d := by
  cases sl <;> simp [slot_read, slot_write]

theorem slot_write_mirroring (s : ppu2c0x_device) (d : Nat) (sl : vram_slot) :
    (slot_write s d sl).mirroring = s.mirroring := by
  cases sl <;> rfl

theorem readbyte_writebyte_of_resolve_eq (s : ppu2c0x_device) (a a2 d : Nat)
    (h : resolve s.mirroring a2 = resolve s.mirroring a) :
    readbyte (writebyte s a d) a2 = d % 256 := by
  unfold readbyte writebyte
  rw [slot_write_mirroring, h, slot_read_write_same]

theorem resolve_nametable (mode n off : Nat) (hn : n < 4) (hoff : off < 0x400) :
    resolve mode (nametable_address n off)
      = vram_slot.nametable (mirror_nametable mode ⟨n, hn⟩) ⟨off, hoff⟩ := by
  have h1 : nametable_address n off % 0x4000 = 0x2000 + n * 0x400 + off := by
    unfold nametable_address; omega
  have h2 : (0x2000 + n * 0x400 + off) / 0x400 % 4 = n := by omega
  have h3 : (0x2000 + n * 0x400 + off) % 0x400 = off := by omega
  unfold resolve
  rw [dif_neg (by omega), if_pos (by omega)]
  simp only [h1, h2, h3]

theorem resolve_nametable_eq_iff (mode n m off : Nat) (hn : n < 4) (hm : m < 4)
    (hoff : off < 0x400) :
    resolve mode (nametable_address n off) = resolve mode (nametable_address m off)
      ↔ mirror_nametable mode ⟨n, hn⟩ = mirror_nametable mode ⟨m, hm⟩ := by
  rw [resolve_nametable mode n off hn hoff, resolve_nametable mode m off hm hoff]
  constructor
  · intro h
    injection h
  · intro h
    rw [h]

theorem resolve_passthrough (a : Nat) :
    resolve PPU_MIRROR_4SCREEN a = resolve PPU_MIRROR_NONE a := by
  unfold resolve mirror_nametable
  rfl

theorem mirror_nametable_cases :
    (∀ n m : Fin 4, mirror_nametable PPU_MIRROR_VERT n = mirror_nametable PPU_MIRROR_VERT m
      ↔ n.val % 2 = m.val % 2) ∧
    (∀ n m : Fin 4, mirror_nametable PPU_MIRROR_HORZ n = mirror_nametable PPU_MIRROR_HORZ m
      ↔ n.val / 2 = m.val / 2) ∧
    (∀ n m : Fin 4, mirror_nametable PPU_MIRROR_HIGH n = mirror_nametable PPU_MIRROR_HIGH m) ∧
    (∀ n m : Fin 4, mirror_nametable PPU_MIRROR_LOW n = mirror_nametable PPU_MIRROR_LOW m) ∧
    (∀ n : Fin 4, mirror_nametable PPU_MIRROR_4SCREEN n = n) ∧
    (∀ n : Fin 4, mirror_nametable PPU_MIRROR_NONE n = n) := by
  decide

/-- Claim C5: the six mirroring codes are NONE=0, VERT=1, HORZ=2, HIGH=3, LOW=4, 4SCREEN=5,
pairwise distinct.  For every offset in 0..0x3FF: under VERT two nametables share storage
exactly when they are A/C or B/D, and a byte written to A is read back from C (B from D);
under HORZ the shared pairs are exactly A/B and C/D, with the same read-back; under HIGH and
LOW all four nametables resolve to one bank; under 4SCREEN and NONE the selection is
unchanged and the two modes resolve every address to the same location. -/
theorem nametable_folds_by_mode (off : Nat) (hoff : off ≤ 0x3FF) :
    [PPU_MIRROR_NONE, PPU_MIRROR_VERT, PPU_MIRROR_HORZ, PPU_MIRROR_HIGH, PPU_MIRROR_LOW,
      PPU_MIRROR_4SCREEN] = [0, 1, 2, 3, 4, 5] ∧
    [PPU_MIRROR_NONE, PPU_MIRROR_VERT, PPU_MIRROR_HORZ, PPU_MIRROR_HIGH, PPU_MIRROR_LOW,
      PPU_MIRROR_4SCREEN].Nodup ∧
    (∀ n m : Nat, n < 4 → m < 4 →
      (resolve PPU_MIRROR_VERT (nametable_address n off)
        = resolve PPU_MIRROR_VERT (nametable_address m off) ↔ n % 2 = m % 2)) ∧
    (∀ (s : ppu2c0x_device) (b : Nat), s.mirroring = PPU_MIRROR_VERT → b < 256 →
      readbyte (writebyte s (nametable_address 0 off) b) (nametable_address 2 off) = b ∧
      readbyte (writebyte s (nametable_address 1 off) b) (nametable_address 3 off) = b) ∧
    (∀ n m : Nat, n < 4 → m < 4 →
      (resolve PPU_MIRROR_HORZ (nametable_address n off)
        = resolve PPU_MIRROR_HORZ (nametable_address m off) ↔ n / 2 = m / 2)) ∧
    (∀ (s : ppu2c0x_device) (b : Nat), s.mirroring = PPU_MIRROR_HORZ → b < 256 →
      readbyte (writebyte s (nametable_address 0 off) b) (nametable_address 1 off) = b ∧
      readbyte (writebyte s (nametable_address 2 off) b) (nametable_address 3 off) = b) ∧
    (∀ mode ∈ [PPU_MIRROR_HIGH, PPU_MIRROR_LOW], ∀ n m : Nat, n < 4 → m < 4 →
      resolve mode (nametable_address n off) = resolve mode (nametable_address m off)) ∧
    (∀ mode ∈ [PPU_MIRROR_4SCREEN, PPU_MIRROR_NONE], ∀ n : Fin 4,
      mirror_nametable mode n = n) ∧
    (∀ a : Nat, resolve PPU_MIRROR_4SCREEN a = resolve PPU_MIRROR_NONE a) := by
  have hlt : off < 0x400 := by omega
  have hc := mirror_nametable_cases
  have hrw : ∀ (s : ppu2c0x_device) (b n m : Nat) (hn : n < 4) (hm : m < 4), b < 256 →
      mirror_nametable s.mirroring ⟨m, hm⟩ = mirror_nametable s.mirroring ⟨n, hn⟩ →
      readbyte (writebyte s (nametable_address n off) b) (nametable_address m off) = b := by
    intro s b n m hn hm hb h
    rw [readbyte_writebyte_of_resolve_eq s _ _ b
      ((resolve_nametable_eq_iff s.mirroring m n off hm hn hlt).2 h), Nat.mod_eq_of_lt hb]
  refine ⟨rfl, by decide, ?_, ?_, ?_, ?_, ?_, ?_, resolve_passthrough⟩
  · intro n m hn hm
    rw [resolve_nametable_eq_iff _ n m off hn hm hlt]
    exact hc.1 ⟨n, hn⟩ ⟨m, hm⟩
  · intro s b hs hb
    exact ⟨hrw s b 0 2 (by decide) (by decide) hb (by rw [hs]; decide),
      hrw s b 1 3 (by decide) (by decide) hb (by rw [hs]; decide)⟩
  · intro n m hn hm
    rw [resolve_nametable_eq_iff _ n m off hn hm hlt]
    exact hc.2.1 ⟨n, hn⟩ ⟨m, hm⟩
  · intro s b hs hb
    exact ⟨hrw s b 0 1 (by decide) (by decide) hb (by rw [hs]; decide),
      hrw s b 2 3 (by decide) (by decide) hb (by rw [hs]; decide)⟩
  · intro mode hmode n m hn hm
    rw [resolve_nametable_eq_iff _ n m off hn hm hlt]
    simp only [List.mem_cons, List.mem_singleton, List.not_mem_nil, or_false] at hmode
    rcases hmode with h | h <;> subst h
    · exact hc.2.2.1 _ _
    · exact hc.2.2.2.1 _ _
  · intro mode hmode n
    simp only [List.mem_cons, List.mem_singleton, List.not_mem_nil, or_false] at hmode
    rcases hmode with h | h <;> subst h
    · exact hc.2.2.2.2.1 n
    · exact hc.2.2.2.2.2 n

/-- Witness for C5: tile byte 0x41 written at offset 0x10 of nametable A under vertical
mirroring is read back from nametable C. -/
theorem nametable_folds_by_mode_witness :
    (0x10 ≤ 0x3FF) ∧ device_vert.mirroring = PPU_MIRROR_VERT ∧ 0x41 < 256 ∧
    readbyte (writebyte device_vert (nametable_address 0 0x10) 0x41)
      (nametable_address 2 0x10) = 0x41 :=
  ⟨by decide, rfl, by decide,
    ((nametable_folds_by_mode 0x10 (by decide)).2.2.2.1 device_vert 0x41 rfl (by decide)).1⟩

/-! ### Register ports -/

theorem read_status_state (s : ppu2c0x_device) :
    (read s PPU_STATUS).2 =
      { s with
        m_regs := Function.update s.m_regs reg_status
          (Int.land (s.m_regs reg_status) (Int.lnot PPU_STATUS_VBLANK))
        m_toggle := 0 } := by
  unfold read
  rw [if_pos (by decide)]

theorem write_address_eq (s : ppu2c0x_device) (data : Nat) :
    write s PPU_ADDRESS data =
      if s.m_toggle = 0 then
        { s with
          m_refresh_latch := ((data % 0x40 : Nat) : Int) * 0x100 + s.m_refresh_latch % 0x100
          m_toggle := 1 }
      else
        { s with
          m_refresh_latch :=
            s.m_refresh_latch % 0x8000 / 0x100 * 0x100 + ((data % 256 : Nat) : Int)
          m_refresh_data :=
            s.m_refresh_latch % 0x8000 / 0x100 * 0x100 + ((data % 256 : Nat) : Int)
          m_toggle := 0 } := by
  unfold write
  rw [if_neg (by decide), if_neg (by decide), if_neg (by decide), if_neg (by decide),
    if_neg (by decide), if_pos (by decide)]

/-- Claim C2: a STATUS read (offset 2) clears the PPU_STATUS_VBLANK bit (0x80) of the
status register and clears `m_toggle`, for every prior state; an ADDRESS write (offset 6)
issued right after it is handled as the first write: it sets the high half of the address
latch, keeps the low byte, sets the toggle and does not commit to the running address, and
the result does not depend on the toggle before the read. -/
theorem status_read_resets_toggle (s : ppu2c0x_device) (data : Nat) :
    Int.land ((read s PPU_STATUS).2.m_regs reg_status) PPU_STATUS_VBLANK = 0 ∧
    ((read s PPU_STATUS).2.m_regs reg_status).testBit 7 = false ∧
    (read s PPU_STATUS).2.m_toggle = 0 ∧
    (write (read s PPU_STATUS).2 PPU_ADDRESS data).m_toggle = 1 ∧
    (write (read s PPU_STATUS).2 PPU_ADDRESS data).m_refresh_latch
      = ((data % 0x40 : Nat) : Int) * 0x100 + s.m_refresh_latch % 0x100 ∧
    (write (read s PPU_STATUS).2 PPU_ADDRESS data).m_refresh_data = s.m_refresh_data ∧
    (∀ k : Int, write (read { s with m_toggle := k } PPU_STATUS).2 PPU_ADDRESS data
      = write (read s PPU_STATUS).2 PPU_ADDRESS data) := by
  have hbit : ((read s PPU_STATUS).2.m_regs reg_status).testBit 7 = false := by
    rw [read_status_state]
    simp only [Function.update_same, Int.testBit_land, Int.testBit_lnot]
    have h80 : PPU_STATUS_VBLANK.testBit 7 = true := by decide
    rw [h80]
    simp
  refine ⟨?_, hbit, ?_, ?_, ?_, ?_, ?_⟩
  · have h := int_land_0x80 ((read s PPU_STATUS).2.m_regs reg_status)
    rw [hbit] at h
    simpa [PPU_STATUS_VBLANK] using h
  · rw [read_status_state]
  · rw [write_address_eq, read_status_state]; simp
  · rw [write_address_eq, read_status_state]; simp
  · rw [write_address_eq, read_status_state]; simp
  · intro k
    rw [read_status_state, read_status_state]

/-! ### The DATA port -/

theorem to_uint8_byte (x : Nat) (h : x < 256) : to_uint8 (x : Int) = x := by
  unfold to_uint8
  omega

theorem resolve_in_2c0x (mirroring address : Nat) :
    resolve_in palette_window_2c0x mirroring address = resolve mirroring address := by
  unfold resolve_in resolve palette_window_2c0x
  by_cases h1 : address % 0x4000 < 0x2000
  · have h2 : ¬ (0x3F00 ≤ address % 0x4000) := by omega
    simp [h1, h2]
  · by_cases h3 : address % 0x4000 < 0x3F00
    · have h2 : ¬ (0x3F00 ≤ address % 0x4000) := by omega
      simp [h1, h2, h3]
    · have h2 : 0x3F00 ≤ address % 0x4000 := by omega
      simp [h1, h2, h3]

theorem read_in_2c0x (s : ppu2c0x_device) (offset : Nat) :
    read_in palette_window_2c0x s offset = read s offset := by
  unfold read_in
  by_cases h : offset % 8 = PPU_DATA
  · rw [if_pos h]
    unfold read
    have h2 : ¬ (offset % 8 = PPU_STATUS) := by rw [h]; decide
    have h4 : ¬ (offset % 8 = PPU_SPRITE_DATA) := by rw [h]; decide
    rw [if_neg h2, if_neg h4, if_pos h]
    have hrb : readbyte_in palette_window_2c0x s (vram_address s)
        = readbyte s (vram_address s) := by
      unfold readbyte_in readbyte
      rw [resolve_in_2c0x]
    have hw : (palette_window_2c0x (vram_address s) = true)
        = is_palette_address (vram_address s) := by
      have hlt : vram_address s < 0x4000 := by unfold vram_address; omega
      unfold palette_window_2c0x is_palette_address
      rw [Nat.mod_eq_of_lt hlt]
      simp
    simp only [hrb, hw]
  · rw [if_neg h]

theorem write_in_2c0x (s : ppu2c0x_device) (offset data : Nat) :
    write_in palette_window_2c0x s offset data = write s offset data := by
  unfold write_in
  by_cases h : offset % 8 = PPU_DATA
  · rw [if_pos h]
    unfold write
    rw [if_neg (by rw [h]; decide), if_neg (by rw [h]; decide), if_neg (by rw [h]; decide),
      if_neg (by rw [h]; decide), if_neg (by rw [h]; decide), if_neg (by rw [h]; decide),
      if_pos h]
    unfold writebyte_in writebyte
    rw [resolve_in_2c0x]
  · rw [if_neg h]

theorem read_in_data_eq (window : Nat → Bool) (s : ppu2c0x_device) :
    read_in window s PPU_DATA =
      ((if window (vram_address s) = true then readbyte_in window s (vram_address s)
        else to_uint8 s.m_buffered_data),
       { s with
         m_buffered_data := (readbyte_in window s (vram_address s) : Nat)
         m_refresh_data := advance_address s }) := by
  unfold read_in
  rw [if_pos (by decide)]

theorem write_in_data_eq (window : Nat → Bool) (s : ppu2c0x_device) (data : Nat) :
    write_in window s PPU_DATA data =
      { writebyte_in window s (vram_address s) data with
        m_refresh_data := advance_address s } := by
  unfold write_in
  rw [if_pos (by decide)]

theorem vram_address_of_cast (s : ppu2c0x_device) (a : Nat) (ha : a < 0x4000)
    (h : s.m_refresh_data = (a : Int)) : vram_address s = a := by
  unfold vram_address
  rw [h]
  omega

/-- Pointing at `a` sets the running address and the latch to `a`, clears the toggle and the
vblank flag, and leaves every other member as it was. -/
theorem point_at_eq (s : ppu2c0x_device) (a : Nat) (ha : a < 0x4000) :
    point_at s a =
      { s with
        m_regs := Function.update s.m_regs reg_status
          (Int.land (s.m_regs reg_status) (Int.lnot PPU_STATUS_VBLANK))
        m_toggle := 0
        m_refresh_latch := (a : Int)
        m_refresh_data := (a : Int) } := by
  unfold point_at
  rw [read_status_state, write_address_eq, write_address_eq]
  simp only [if_true, one_ne_zero, if_false]
  have harith : (((a / 0x100 % 0x40 : Nat) : Int) * 0x100 + s.m_refresh_latch % 0x100)
      % 0x8000 / 0x100 * 0x100 + ((a % 0x100 % 256 : Nat) : Int) = (a : Int) := by
    omega
  rw [harith]

theorem slot_write_other_fields (s : ppu2c0x_device) (d : Nat) (sl : vram_slot) :
    (slot_write s d sl).m_buffered_data = s.m_buffered_data ∧
    (slot_write s d sl).m_regs = s.m_regs ∧
    (slot_write s d sl).m_refresh_data = s.m_refresh_data := by
  cases sl <;> exact ⟨rfl, rfl, rfl⟩

theorem readbyte_in_writebyte_in (window : Nat → Bool) (s : ppu2c0x_device) (a d : Nat) :
    readbyte_in window (writebyte_in window s a d) a = d % 256 := by
  unfold readbyte_in writebyte_in
  rw [slot_write_mirroring, slot_read_write_same]

theorem writebyte_in_palette_ram (window : Nat → Bool) (s : ppu2c0x_device) (a d : Nat)
    (ha : a < 0x4000) (hw : window a = false) :
    (writebyte_in window s a d).m_palette_ram = s.m_palette_ram := by
  have hw2 : ¬ (window (a % 0x4000) = true) := by
    rw [Nat.mod_eq_of_lt ha, hw]
    decide
  unfold writebyte_in resolve_in
  rw [if_neg hw2]
  split <;> rfl

theorem readbyte_in_window (window : Nat → Bool) (s : ppu2c0x_device) (a : Nat)
    (ha : a < 0x4000) (hw : window a = true) :
    readbyte_in window s a = palette_read s a := by
  have hw2 : window (a % 0x4000) = true := by
    rw [Nat.mod_eq_of_lt ha, hw]
  unfold readbyte_in resolve_in palette_read
  rw [if_pos hw2, Nat.mod_eq_of_lt ha]
  rfl

/-- The facts about the state in which the first read is issued. -/
theorem written_then_pointed_facts (window : Nat → Bool) (s : ppu2c0x_device) (a X : Nat)
    (ha : a < 0x4000) (hb : X < 256) :
    vram_address (written_then_pointed window s a X) = a ∧
    readbyte_in window (written_then_pointed window s a X) a = X ∧
    (written_then_pointed window s a X).m_buffered_data = s.m_buffered_data ∧
    (written_then_pointed window s a X).m_regs reg_control0 = s.m_regs reg_control0 ∧
    (window a = false →
      (written_then_pointed window s a X).m_palette_ram = s.m_palette_ram) := by
  have hv1 : vram_address (point_at s a) = a :=
    vram_address_of_cast _ a ha (by rw [point_at_eq s a ha])
  have hne : reg_control0 ≠ reg_status := by decide
  unfold written_then_pointed
  rw [point_at_eq _ a ha, write_in_data_eq, hv1]
  refine ⟨vram_address_of_cast _ a ha rfl, ?_, ?_, ?_, ?_⟩
  · have h := readbyte_in_writebyte_in window (point_at s a) a X
    rw [Nat.mod_eq_of_lt hb] at h
    exact h
  · show (writebyte_in window (point_at s a) a X).m_buffered_data = _
    unfold writebyte_in
    rw [(slot_write_other_fields _ _ _).1, point_at_eq s a ha]
  · dsimp only
    rw [Function.update_noteq hne]
    unfold writebyte_in
    rw [(slot_write_other_fields _ _ _).2.1, point_at_eq s a ha]
    dsimp only
    rw [Function.update_noteq hne]
  · intro hw
    show (writebyte_in window (point_at s a) a X).m_palette_ram = _
    rw [writebyte_in_palette_ram window _ a X ha hw, point_at_eq s a ha]

/-- In a proper, non-empty palette window some non-palette address is followed by a palette
address. -/
theorem window_edge (window : Nat → Bool)
    (hp : ∃ p, p < 0x4000 ∧ window p = true) (hq : ∃ q, q < 0x4000 ∧ window q = false) :
    ∃ a, a < 0x4000 ∧ window a = false ∧ window ((a + 1) % 0x4000) = true := by
  by_contra hno
  obtain ⟨p, hp4, hpw⟩ := hp
  obtain ⟨q, hq4, hqw⟩ := hq
  have hall : ∀ k : Nat, window ((q + k) % 0x4000) = false := by
    intro k
    induction k with
    | zero =>
      rw [Nat.add_zero, Nat.mod_eq_of_lt hq4]
      exact hqw
    | succ k ih =>
      have hstep : (q + (k + 1)) % 0x4000 = ((q + k) % 0x4000 + 1) % 0x4000 := by omega
      rw [hstep]
      cases hcase : window (((q + k) % 0x4000 + 1) % 0x4000) with
      | false => rfl
      | true =>
        exact absurd ⟨(q + k) % 0x4000, Nat.mod_lt _ (by decide), ih, hcase⟩ hno
  have hpk := hall (p + 0x4000 - q)
  have hmod : (q + (p + 0x4000 - q)) % 0x4000 = p := by omega
  rw [hmod, hpw] at hpk
  exact Bool.noConfusion hpk

theorem vram_increment_of_control0_zero (s : ppu2c0x_device)
    (h : s.m_regs reg_control0 = 0) : vram_increment s = 1 := by
  unfold vram_increment
  rw [h]
  rfl

theorem first_read_facts (window : Nat → Bool) (s : ppu2c0x_device) (a X : Nat)
    (ha : a < 0x4000) (hnp : window a = false) (hb : X < 256) :
    (read_in window (written_then_pointed window s a X) PPU_DATA).1
      = to_uint8 s.m_buffered_data ∧
    (read_in window (written_then_pointed window s a X) PPU_DATA).2.m_buffered_data
      = (X : Int) ∧
    (read_in window (written_then_pointed window s a X) PPU_DATA).2.m_palette_ram
      = s.m_palette_ram ∧
    (read_in window (written_then_pointed window s a X) PPU_DATA).2.m_refresh_data
      = advance_address (written_then_pointed window s a X) := by
  have hf := written_then_pointed_facts window s a X ha hb
  rw [read_in_data_eq, hf.1, hf.2.1]
  refine ⟨?_, rfl, hf.2.2.2.2 hnp, rfl⟩
  simp only [hnp, Bool.false_eq_true, if_false, hf.2.2.1]

theorem buffered_read (window : Nat → Bool) (t : ppu2c0x_device) (X : Nat) (hb : X < 256)
    (ht : t.m_buffered_data = (X : Int)) (hw : window (vram_address t) = false) :
    (read_in window t PPU_DATA).1 = X := by
  rw [read_in_data_eq]
  simp only [hw, Bool.false_eq_true, if_false, ht]
  exact to_uint8_byte X hb

end ppu2c0x
